import Mathlib

/-!
Shallow embedding of the lead-capture-server repository (three Express
server variants) for checking its specification.

The repository contains three near-duplicate server files:
* `server-with-gmail.js`  — orchestrator with isolated failure boundaries,
  Gmail/nodemailer notification transport (namespace `Gmail`);
* the Resend variant of `server-simple.js` — same orchestrator, Resend
  API transport (namespace `Rsend`);
* `server.js` — plain sequential handler without isolated boundaries,
  nodemailer transport (namespace `ServerJs`).

JavaScript values are embedded as follows: possibly-absent string fields
become `Option String` (with `none` for `undefined`); the required string
fields `name`, `email`, `phone` become `String`, with `""` standing for
both the empty string and an absent field (the two are indistinguishable
to every use the servers make of them: the `!x` truthiness test, template
interpolation and the sheet row are only reached when they are non-empty);
the `whatsapp` flag becomes `Bool`.  The two external services (Google
Sheets append, mail transport send) are modelled by a `World` record
saying what each external call would do if performed; the date formatters
`toLocaleString(...)` from the Node runtime are universally quantified
function parameters.
-/

/-- Outcome of one external (await-ed) call: resolves, or rejects with an
error message. -/
inductive ExtResult (α : Type) where
  | ok : α → ExtResult α
  | err : String → ExtResult α
deriving DecidableEq, Repr

/-- Behaviour of the two external collaborators during one request. -/
structure World where
  sheetAppend : ExtResult Unit
  emailSend : ExtResult String
deriving DecidableEq, Repr

/-- An inbound form submission (`req.body`).  `extra` carries any further
payload fields the caller may have sent; the servers never read them. -/
structure FormData where
  name : String
  email : String
  phone : String
  whatsapp : Bool
  source : Option String
  timestamp : Option String
  extra : List (String × String) := []
deriving DecidableEq, Repr

/-- Relevant environment configuration (process.env). -/
structure Env where
  emailUser : String
  notificationEmail : String
  resendFromEmail : Option String
deriving DecidableEq, Repr

/-- JavaScript truthiness of a string value (`!s` is true exactly for
the empty string / an absent field). -/
def jsTruthy (s : String) : Bool := !(s == "")

/-- JavaScript `x || dflt` on a possibly-absent string: an absent or
empty (falsy) value falls back to the default. -/
def jsOr (o : Option String) (dflt : String) : String :=
  match o with
  | some s => if s == "" then dflt else s
  | none => dflt

/-- A mail message as handed to the transport (nodemailer `mailOptions`
or the Resend `send` payload).  Absent keys are `none`. -/
structure MailMessage where
  fromAddr : String
  toAddr : String
  replyTo : Option String
  subject : String
  html : String
  text : Option String
deriving DecidableEq, Repr

/-- What one call of a notification function did: the message it handed
to the transport (if any), and the value it returned to its caller
(`none` embeds JavaScript `null`). -/
structure SendAttempt where
  dispatched : Option MailMessage
  result : Option String
deriving DecidableEq, Repr

/-- An HTTP response as produced by the submit-form handlers:
`details = some (sheetSuccess, emailSuccess)` when the body carries a
`details` object, `none` when it does not. -/
structure Response where
  status : Nat
  success : Bool
  message : String
  details : Option (Bool × Bool)
deriving DecidableEq, Repr

/-- Observable trace of one submit-form request: the response plus
whether the spreadsheet append and the notification step were reached. -/
structure HandlerTrace where
  response : Response
  sheetCalled : Bool
  emailStepRan : Bool
deriving DecidableEq, Repr

/-- Body of a health-check response; `services` is carried only by the
Gmail variant. -/
structure HealthBody where
  status : String
  timestamp : String
  services : Option (Bool × Bool)
deriving DecidableEq, Repr

/-- String containment, stated over the underlying character lists. -/
def containsStr (hay needle : String) : Prop :=
  ∃ p q : List Char, hay.data = p ++ needle.data ++ q

namespace Gmail

/-- The row block `values` built by `appendToSheet` in
`server-with-gmail.js` (cells are JavaScript values: `none` embeds
`undefined`). -/
def sheetValues (d : FormData) : List (List (Option String)) :=
  [[d.timestamp,
    some d.name,
    some d.email,
    some d.phone,
    some (if d.whatsapp then "Yes" else "No"),
    d.source]]

/-- `appendToSheet` of `server-with-gmail.js`: performs the external
append (re-throwing its error), returning the API response on success. -/
def appendToSheet (w : World) (d : FormData) : ExtResult (List (List (Option String))) :=
  match w.sheetAppend with
  | ExtResult.ok _ => ExtResult.ok (sheetValues d)
  | ExtResult.err e => ExtResult.err e

/-- The `htmlContent` template of `sendNotificationEmail` in
`server-with-gmail.js`. -/
def htmlContent (d : FormData) (formattedDate : String) : String :=
  "\n      <!DOCTYPE html>\n      <html dir=\"rtl\" lang=\"he\">\n      <head>\n        <meta charset=\"UTF-8\">\n        <meta name=\"viewport\" content=\"width=device-width, initial-scale=1.0\">\n        <title>ליד חדש התקבל!</title>\n        <style>\n          body \x7b\n            font-family: Arial, sans-serif;\n            line-height: 1.6;\n            color: #333;\n            max-width: 600px;\n            margin: 0 auto;\n            padding: 20px;\n            background-color: #f9f9f9;\n          \x7d\n          .container \x7b\n            background-color: white;\n            border-radius: 8px;\n            box-shadow: 0 2px 10px rgba(0,0,0,0.1);\n            overflow: hidden;\n          \x7d\n          .header \x7b\n            background-color: #f07e26;\n            color: white;\n            padding: 20px;\n            text-align: center;\n          \x7d\n          .header h1 \x7b\n            margin: 0;\n            font-size: 24px;\n          \x7d\n          .content \x7b\n            padding: 30px;\n          \x7d\n          .lead-info \x7b\n            margin-bottom: 25px;\n          \x7d\n          .info-row \x7b\n            padding: 10px 0;\n            border-bottom: 1px solid #eee;\n            display: flex;\n            justify-content: space-between;\n          \x7d\n          .info-row:last-child \x7b\n            border-bottom: none;\n          \x7d\n          .label \x7b\n            font-weight: bold;\n            color: #f07e26;\n            min-width: 100px;\n          \x7d\n          .value \x7b\n            flex: 1;\n            text-align: left;\n          \x7d\n          .timestamp \x7b\n            color: #666;\n            font-size: 0.9em;\n            text-align: center;\n            margin-top: 20px;\n            padding-top: 20px;\n            border-top: 1px solid #eee;\n          \x7d\n          .footer \x7b\n            background-color: #f5f5f5;\n            padding: 15px;\n            text-align: center;\n            font-size: 0.8em;\n            color: #666;\n          \x7d\n        </style>\n      </head>\n      <body>\n        <div class=\"container\">\n          <div class=\"header\">\n            <h1>🎯 ליד חדש מדף הנחיתה!</h1>\n          </div>\n          <div class=\"content\">\n            <div class=\"lead-info\">\n              <div class=\"info-row\">\n                <span class=\"label\">שם:</span>\n                <span class=\"value\">" ++
    d.name ++
    "</span>\n              </div>\n              <div class=\"info-row\">\n                <span class=\"label\">אימייל:</span>\n                <span class=\"value\">" ++
    d.email ++
    "</span>\n              </div>\n              <div class=\"info-row\">\n                <span class=\"label\">טלפון:</span>\n                <span class=\"value\">" ++
    d.phone ++
    "</span>\n              </div>\n              <div class=\"info-row\">\n                <span class=\"label\">אישור לווטסאפ:</span>\n                <span class=\"value\">" ++
    (if d.whatsapp then "✅ כן" else "❌ לא") ++
    "</span>\n              </div>\n              <div class=\"info-row\">\n                <span class=\"label\">מקור:</span>\n                <span class=\"value\">" ++
    (jsOr d.source "דף נחיתה") ++
    "</span>\n              </div>\n            </div>\n            <div class=\"timestamp\">\n              📅 התקבל בתאריך: " ++
    formattedDate ++
    "\n            </div>\n          </div>\n          <div class=\"footer\">\n            מערכת ניהול לידים - אלרן זורמן\n          </div>\n        </div>\n      </body>\n      </html>\n    "

/-- The plain-text body of the Gmail notification. -/
def textContent (d : FormData) (formattedDate : String) : String :=
  "ליד חדש מדף הנחיתה!\n\nשם: " ++
    d.name ++
    "\nאימייל: " ++
    d.email ++
    "\nטלפון: " ++
    d.phone ++
    "\nווטסאפ: " ++
    (if d.whatsapp then "כן" else "לא") ++
    "\nמקור: " ++
    (jsOr d.source "דף נחיתה") ++
    "\n\nהתקבל בתאריך: " ++
    formattedDate

/-- The `mailOptions` record built by the Gmail `sendNotificationEmail`. -/
def mailOptions (env : Env) (d : FormData) (formattedDate : String) : MailMessage :=
  { fromAddr := "\"Elran Lead Capture\" <" ++ env.emailUser ++ ">"
    toAddr := env.notificationEmail
    replyTo := some d.email
    subject := "🎯 ליד חדש: " ++ d.name ++ " - " ++ d.phone
    html := htmlContent d formattedDate
    text := some (textContent d formattedDate) }

/-- `sendNotificationEmail` of `server-with-gmail.js`: returns `null`
when no transporter is configured; otherwise builds `mailOptions` and
calls `transporter.sendMail`, returning the send info on success and
`null` (errors are caught inside, never re-thrown) on failure.
`fmt` models `ts => new Date(ts).toLocaleString('he-IL', ...)`. -/
def sendNotificationEmail (transporterConfigured : Bool) (env : Env)
    (fmt : Option String → String) (w : World) (d : FormData) : SendAttempt :=
  if !transporterConfigured then
    { dispatched := none, result := none }
  else
    let formattedDate := fmt d.timestamp
    let msg := mailOptions env d formattedDate
    match w.emailSend with
    | ExtResult.ok info => { dispatched := some msg, result := some info }
    | ExtResult.err _ => { dispatched := some msg, result := none }

/-- The `POST /api/submit-form` handler of `server-with-gmail.js`. -/
def submitForm (transporterConfigured : Bool) (env : Env)
    (fmt : Option String → String) (w : World) (d : FormData) : HandlerTrace :=
  if !(jsTruthy d.name) || !(jsTruthy d.email) || !(jsTruthy d.phone) then
    { response := { status := 400, success := false,
                    message := "Missing required fields", details := none }
      sheetCalled := false, emailStepRan := false }
  else
    let sheetSuccess :=
      match appendToSheet w d with
      | ExtResult.ok _ => true
      | ExtResult.err _ => false
    let emailResult := (sendNotificationEmail transporterConfigured env fmt w d).result
    let emailSuccess := emailResult.isSome
    let overallSuccess := sheetSuccess
    if overallSuccess then
      { response := { status := 200, success := true,
                      message := "Form submitted successfully",
                      details := some (sheetSuccess, emailSuccess) }
        sheetCalled := true, emailStepRan := true }
    else
      { response := { status := 500, success := false,
                      message := "Failed to process form submission",
                      details := some (sheetSuccess, emailSuccess) }
        sheetCalled := true, emailStepRan := true }

/-- The `GET /health` handler of `server-with-gmail.js`. -/
def health (googleSheetsConfigured emailConfigured : Bool) (now : String) :
    Nat × HealthBody :=
  (200, { status := "UP", timestamp := now,
          services := some (googleSheetsConfigured, emailConfigured) })

/-- Routes registered by `server-with-gmail.js`. -/
def routes : List (String × String) :=
  [("POST", "/api/submit-form"), ("GET", "/health")]

end Gmail

namespace Rsend

/-- The row block `values` built by `appendToSheet` in the Resend
variant (identical construction to the Gmail variant). -/
def sheetValues (d : FormData) : List (List (Option String)) :=
  [[d.timestamp,
    some d.name,
    some d.email,
    some d.phone,
    some (if d.whatsapp then "Yes" else "No"),
    d.source]]

/-- `appendToSheet` of the Resend variant. -/
def appendToSheet (w : World) (d : FormData) : ExtResult (List (List (Option String))) :=
  match w.sheetAppend with
  | ExtResult.ok _ => ExtResult.ok (sheetValues d)
  | ExtResult.err e => ExtResult.err e

/-- The `htmlContent` template of `sendNotificationEmail` in the Resend
variant. -/
def htmlContent (d : FormData) (formattedDate : String) : String :=
  "\n      <!DOCTYPE html>\n      <html dir=\"rtl\" lang=\"he\">\n      <head>\n        <meta charset=\"UTF-8\">\n        <meta name=\"viewport\" content=\"width=device-width, initial-scale=1.0\">\n        <title>ליד חדש התקבל!</title>\n        <style>\n          body \x7b\n            font-family: Arial, sans-serif;\n            line-height: 1.6;\n            color: #333;\n            max-width: 600px;\n            margin: 0 auto;\n            padding: 20px;\n          \x7d\n          .header \x7b\n            background-color: #f07e26;\n            color: white;\n            padding: 15px 20px;\n            border-radius: 5px 5px 0 0;\n          \x7d\n          .content \x7b\n            padding: 20px;\n            border: 1px solid #ddd;\n            border-top: none;\n            border-radius: 0 0 5px 5px;\n          \x7d\n          .lead-info \x7b\n            margin-bottom: 20px;\n          \x7d\n          .label \x7b\n            font-weight: bold;\n            margin-left: 10px;\n          \x7d\n          .timestamp \x7b\n            color: #666;\n            font-size: 0.9em;\n            text-align: left;\n            margin-top: 20px;\n          \x7d\n        </style>\n      </head>\n      <body>\n        <div class=\"header\">\n          <h1>ליד חדש מדף הנחיתה!</h1>\n        </div>\n        <div class=\"content\">\n          <div class=\"lead-info\">\n            <p><span class=\"label\">שם:</span> " ++
    d.name ++
    "</p>\n            <p><span class=\"label\">אימייל:</span> " ++
    d.email ++
    "</p>\n            <p><span class=\"label\">טלפון:</span> " ++
    d.phone ++
    "</p>\n            <p><span class=\"label\">אישור לווטסאפ:</span> " ++
    (if d.whatsapp then "כן" else "לא") ++
    "</p>\n            <p><span class=\"label\">מקור:</span> " ++
    (jsOr d.source "דף נחיתה") ++
    "</p>\n          </div>\n          <p class=\"timestamp\">התקבל בתאריך: " ++
    formattedDate ++
    "</p>\n        </div>\n      </body>\n      </html>\n    "

/-- The payload handed to `resend.emails.send` (no `replyTo` and no
`text` key are set by this variant). -/
def mailOptions (env : Env) (d : FormData) (formattedDate : String) : MailMessage :=
  { fromAddr := jsOr env.resendFromEmail "onboarding@resend.dev"
    toAddr := env.notificationEmail
    replyTo := none
    subject := "ליד חדש: " ++ d.name ++ " - " ++ d.phone
    html := htmlContent d formattedDate
    text := none }

/-- `sendNotificationEmail` of the Resend variant: returns `null` when
no API key is configured; otherwise calls `resend.emails.send`,
returning the response on success and `null` (errors are caught inside)
on failure. -/
def sendNotificationEmail (resendConfigured : Bool) (env : Env)
    (fmt : Option String → String) (w : World) (d : FormData) : SendAttempt :=
  if !resendConfigured then
    { dispatched := none, result := none }
  else
    let formattedDate := fmt d.timestamp
    let msg := mailOptions env d formattedDate
    match w.emailSend with
    | ExtResult.ok info => { dispatched := some msg, result := some info }
    | ExtResult.err _ => { dispatched := some msg, result := none }

/-- The `POST /api/submit-form` handler of the Resend variant. -/
def submitForm (resendConfigured : Bool) (env : Env)
    (fmt : Option String → String) (w : World) (d : FormData) : HandlerTrace :=
  if !(jsTruthy d.name) || !(jsTruthy d.email) || !(jsTruthy d.phone) then
    { response := { status := 400, success := false,
                    message := "Missing required fields", details := none }
      sheetCalled := false, emailStepRan := false }
  else
    let sheetSuccess :=
      match appendToSheet w d with
      | ExtResult.ok _ => true
      | ExtResult.err _ => false
    let emailResult := (sendNotificationEmail resendConfigured env fmt w d).result
    let emailSuccess := emailResult.isSome
    let overallSuccess := sheetSuccess
    if overallSuccess then
      { response := { status := 200, success := true,
                      message := "Form submitted successfully",
                      details := some (sheetSuccess, emailSuccess) }
        sheetCalled := true, emailStepRan := true }
    else
      { response := { status := 500, success := false,
                      message := "Failed to process form submission",
                      details := some (sheetSuccess, emailSuccess) }
        sheetCalled := true, emailStepRan := true }

/-- The `GET /health` handler of the Resend variant (no `services`
object in the body). -/
def health (now : String) : Nat × HealthBody :=
  (200, { status := "UP", timestamp := now, services := none })

/-- Routes registered by the Resend variant. -/
def routes : List (String × String) :=
  [("POST", "/api/submit-form"), ("GET", "/health")]

end Rsend

namespace ServerJs

/-- The row block `values` built by `appendToSheet` in `server.js`. -/
def sheetValues (d : FormData) : List (List (Option String)) :=
  [[d.timestamp,
    some d.name,
    some d.email,
    some d.phone,
    some (if d.whatsapp then "Yes" else "No"),
    d.source]]

/-- `appendToSheet` of `server.js` (no try/catch of its own; the error
of the external call propagates to the caller). -/
def appendToSheet (w : World) (d : FormData) : ExtResult (List (List (Option String))) :=
  match w.sheetAppend with
  | ExtResult.ok _ => ExtResult.ok (sheetValues d)
  | ExtResult.err e => ExtResult.err e

/-- The `html` template of `sendNotificationEmail` in `server.js`.
`fmtLocale` models `ts => new Date(ts).toLocaleString()`. -/
def htmlContent (d : FormData) (fmtLocale : Option String → String) : String :=
  "\n      <h1>New Lead from Landing Page</h1>\n      <p><strong>Name:</strong> " ++
    d.name ++
    "</p>\n      <p><strong>Email:</strong> " ++
    d.email ++
    "</p>\n      <p><strong>Phone:</strong> " ++
    d.phone ++
    "</p>\n      <p><strong>Whatsapp Consent:</strong> " ++
    (if d.whatsapp then "Yes" else "No") ++
    "</p>\n      <p><strong>Source:</strong> " ++
    (jsOr d.source "Landing Page") ++
    "</p>\n      <p><strong>Time:</strong> " ++
    (fmtLocale d.timestamp) ++
    "</p>\n    "

/-- The `mailOptions` record built by `sendNotificationEmail` in
`server.js` (no `replyTo`, no `text`). -/
def mailOptions (env : Env) (d : FormData) (fmtLocale : Option String → String) : MailMessage :=
  { fromAddr := env.emailUser
    toAddr := env.notificationEmail
    replyTo := none
    subject := "New Lead Captured!"
    html := htmlContent d fmtLocale
    text := none }

/-- `sendNotificationEmail` of `server.js`: unconditionally builds the
message and calls `transporter.sendMail` — there is no configuration
check and no catch, so the transport error propagates to the caller. -/
def sendNotificationEmail (env : Env) (fmtLocale : Option String → String)
    (w : World) (d : FormData) : MailMessage × ExtResult String :=
  (mailOptions env d fmtLocale, w.emailSend)

/-- The `POST /api/submit-form` handler of `server.js`: both awaits are
inside the single outer try/catch, so the first rejection jumps to the
catch block and yields the generic 500 response. -/
def submitForm (env : Env) (fmtLocale : Option String → String)
    (w : World) (d : FormData) : HandlerTrace :=
  if !(jsTruthy d.name) || !(jsTruthy d.email) || !(jsTruthy d.phone) then
    { response := { status := 400, success := false,
                    message := "Missing required fields", details := none }
      sheetCalled := false, emailStepRan := false }
  else
    match appendToSheet w d with
    | ExtResult.err _ =>
        { response := { status := 500, success := false,
                        message := "Server error", details := none }
          sheetCalled := true, emailStepRan := false }
    | ExtResult.ok _ =>
        match (sendNotificationEmail env fmtLocale w d).2 with
        | ExtResult.err _ =>
            { response := { status := 500, success := false,
                            message := "Server error", details := none }
              sheetCalled := true, emailStepRan := true }
        | ExtResult.ok _ =>
            { response := { status := 200, success := true,
                            message := "Form submitted successfully", details := none }
              sheetCalled := true, emailStepRan := true }

/-- Routes registered by `server.js`: only the submission endpoint; no
health-check route exists in this variant. -/
def routes : List (String × String) :=
  [("POST", "/api/submit-form")]

end ServerJs

/-! Derived abbreviations used only to state theorems. -/

/-- Whether the external sheet append resolves in world `w`. -/
def sheetOk (w : World) : Bool :=
  match w.sheetAppend with
  | ExtResult.ok _ => true
  | ExtResult.err _ => false

/-- The `emailSuccess` flag (`!!emailResult`) the Gmail/Resend
orchestrators compute in world `w` when the transport configuration
flag is `configured`. -/
def emailSuccessOf (configured : Bool) (w : World) : Bool :=
  configured &&
    (match w.emailSend with
     | ExtResult.ok _ => true
     | ExtResult.err _ => false)

/-! Concrete fixtures for witnesses and counterexamples. -/

/-- The fixed submission from the specification's test properties. -/
def dana : FormData :=
  { name := "Dana", email := "dana@x.com", phone := "0501234567",
    whatsapp := true, source := some "Landing Page",
    timestamp := some "2025-05-17T08:02:33.600Z", extra := [] }

/-- The same submission with additional payload fields. -/
def danaExtra : FormData :=
  { dana with extra := [("company", "ACME"), ("note", "vip")] }

/-- A submission with an empty `name` field. -/
def noName : FormData :=
  { dana with name := "" }

/-- A concrete environment. -/
def envA : Env :=
  { emailUser := "ops@example.com", notificationEmail := "leads@example.com",
    resendFromEmail := some "noreply@example.com" }

/-- A concrete locale-date formatter. -/
def fmtA : Option String → String := fun _ => "17.05.2025, 11:02"

/-- World where both external calls resolve. -/
def wOk : World :=
  { sheetAppend := ExtResult.ok (), emailSend := ExtResult.ok "msg-1" }

/-- World where the sheet append rejects and the mail send resolves. -/
def wSheetErr : World :=
  { sheetAppend := ExtResult.err "sheet down", emailSend := ExtResult.ok "msg-1" }

/-- World where the sheet append resolves and the mail send rejects. -/
def wEmailErr : World :=
  { sheetAppend := ExtResult.ok (), emailSend := ExtResult.err "smtp down" }

/-! Helper lemmas about string containment. -/

theorem containsStr_refl (x : String) : containsStr x x :=
  ⟨[], [], by simp⟩

theorem containsStr_appendl {a x : String} (b : String) (h : containsStr a x) :
    containsStr (a ++ b) x := by
  obtain ⟨p, q, hpq⟩ := h
  exact ⟨p, q ++ b.data, by simp [String.data_append, hpq]⟩

theorem containsStr_appendr (a : String) {b x : String} (h : containsStr b x) :
    containsStr (a ++ b) x := by
  obtain ⟨p, q, hpq⟩ := h
  exact ⟨a.data ++ p, q, by simp [String.data_append, hpq]⟩

theorem containsStr_trans {a b c : String} (hab : containsStr a b)
    (hbc : containsStr b c) : containsStr a c := by
  obtain ⟨p, q, hpq⟩ := hab
  obtain ⟨r, s, hrs⟩ := hbc
  exact ⟨p ++ r, s ++ q, by simp [hpq, hrs]⟩

/-- All six interpolated values occur in the Gmail HTML body. -/
theorem gmailHtml_contains (d : FormData) (fd : String) :
    containsStr (Gmail.htmlContent d fd) d.name ∧
    containsStr (Gmail.htmlContent d fd) d.email ∧
    containsStr (Gmail.htmlContent d fd) d.phone ∧
    containsStr (Gmail.htmlContent d fd) (if d.whatsapp then "✅ כן" else "❌ לא") ∧
    containsStr (Gmail.htmlContent d fd) (jsOr d.source "דף נחיתה") ∧
    containsStr (Gmail.htmlContent d fd) fd := by
  unfold Gmail.htmlContent
  refine ⟨?_, ?_, ?_, ?_, ?_, ?_⟩ <;>
    repeat first
      | exact containsStr_appendr _ (containsStr_refl _)
      | apply containsStr_appendl

/-- All six interpolated values occur in the Resend HTML body. -/
theorem rsendHtml_contains (d : FormData) (fd : String) :
    containsStr (Rsend.htmlContent d fd) d.name ∧
    containsStr (Rsend.htmlContent d fd) d.email ∧
    containsStr (Rsend.htmlContent d fd) d.phone ∧
    containsStr (Rsend.htmlContent d fd) (if d.whatsapp then "כן" else "לא") ∧
    containsStr (Rsend.htmlContent d fd) (jsOr d.source "דף נחיתה") ∧
    containsStr (Rsend.htmlContent d fd) fd := by
  unfold Rsend.htmlContent
  refine ⟨?_, ?_, ?_, ?_, ?_, ?_⟩ <;>
    repeat first
      | exact containsStr_appendr _ (containsStr_refl _)
      | apply containsStr_appendl

/-- C1: for every submission in which `name`, `email`, or `phone` is
absent or empty, the `POST /api/submit-form` handler of each of the three
server variants returns status 400 with `success:false` and the message
"Missing required fields", and invokes neither the spreadsheet append nor
the notification step. -/
theorem missing_required_fields_rejected (tc : Bool) (env : Env)
    (fmt fmtL : Option String → String) (w : World) (d : FormData)
    (h : jsTruthy d.name = false ∨ jsTruthy d.email = false ∨ jsTruthy d.phone = false) :
    Gmail.submitForm tc env fmt w d =
      { response := { status := 400, success := false,
                      message := "Missing required fields", details := none }
        sheetCalled := false, emailStepRan := false } ∧
    Rsend.submitForm tc env fmt w d =
      { response := { status := 400, success := false,
                      message := "Missing required fields", details := none }
        sheetCalled := false, emailStepRan := false } ∧
    ServerJs.submitForm env fmtL w d =
      { response := { status := 400, success := false,
                      message := "Missing required fields", details := none }
        sheetCalled := false, emailStepRan := false } := by
  rcases h with h | h | h <;>
    simp [Gmail.submitForm, Rsend.submitForm, ServerJs.submitForm, h]

/-- C1 witness: the concrete submission with an empty name is rejected by
all three variants. -/
theorem missing_required_fields_rejected_witness :
    jsTruthy noName.name = false ∧
    (Gmail.submitForm true envA fmtA wOk noName =
      { response := { status := 400, success := false,
                      message := "Missing required fields", details := none }
        sheetCalled := false, emailStepRan := false } ∧
     Rsend.submitForm true envA fmtA wOk noName =
      { response := { status := 400, success := false,
                      message := "Missing required fields", details := none }
        sheetCalled := false, emailStepRan := false } ∧
     ServerJs.submitForm envA fmtA wOk noName =
      { response := { status := 400, success := false,
                      message := "Missing required fields", details := none }
        sheetCalled := false, emailStepRan := false }) :=
  ⟨by decide,
   missing_required_fields_rejected true envA fmtA fmtA wOk noName (Or.inl (by decide))⟩

/-- C5: for the fixed submission Dana the row block that `appendToSheet`
constructs and appends equals `[timestamp, name, email, phone, "Yes",
source]` in each of the three server variants. -/
theorem dana_sheet_row :
    Gmail.appendToSheet wOk dana =
      ExtResult.ok [[some "2025-05-17T08:02:33.600Z", some "Dana", some "dana@x.com",
        some "0501234567", some "Yes", some "Landing Page"]] ∧
    Rsend.appendToSheet wOk dana =
      ExtResult.ok [[some "2025-05-17T08:02:33.600Z", some "Dana", some "dana@x.com",
        some "0501234567", some "Yes", some "Landing Page"]] ∧
    ServerJs.appendToSheet wOk dana =
      ExtResult.ok [[some "2025-05-17T08:02:33.600Z", some "Dana", some "dana@x.com",
        some "0501234567", some "Yes", some "Landing Page"]] := by
  refine ⟨rfl, rfl, rfl⟩

/-- C9 (amended): in the Gmail and Resend variants `GET /health` is
registered and always returns status 200 with body status "UP" and the
current timestamp, for every integration-configuration state; the
`server.js` variant registers no health route at all. -/
theorem health_always_up (g e : Bool) (now : String) :
    Gmail.health g e now =
      (200, { status := "UP", timestamp := now, services := some (g, e) }) ∧
    Rsend.health now =
      (200, { status := "UP", timestamp := now, services := none }) ∧
    ("GET", "/health") ∈ Gmail.routes ∧
    ("GET", "/health") ∈ Rsend.routes := by
  refine ⟨rfl, rfl, by decide, by decide⟩

/-- C9 counterexample: the `server.js` variant has no `GET /health`
route, so the claim fails for that variant. -/
theorem serverJs_no_health_route : ("GET", "/health") ∉ ServerJs.routes := by
  decide

/-- C10: for any two submissions that agree on the six mapped fields
(timestamp, name, email, phone, whatsapp, source), `appendToSheet`
constructs identical row blocks in each variant — additional or differing
payload fields never influence the appended row. -/
theorem sheet_row_depends_only_on_mapped_fields (d₁ d₂ : FormData)
    (hts : d₁.timestamp = d₂.timestamp) (hn : d₁.name = d₂.name)
    (he : d₁.email = d₂.email) (hp : d₁.phone = d₂.phone)
    (hw : d₁.whatsapp = d₂.whatsapp) (hs : d₁.source = d₂.source) :
    Gmail.sheetValues d₁ = Gmail.sheetValues d₂ ∧
    Rsend.sheetValues d₁ = Rsend.sheetValues d₂ ∧
    ServerJs.sheetValues d₁ = ServerJs.sheetValues d₂ := by
  simp [Gmail.sheetValues, Rsend.sheetValues, ServerJs.sheetValues,
    hts, hn, he, hp, hw, hs]

/-- C10 witness: Dana with extra payload fields maps to the same rows as
Dana without them. -/
theorem sheet_row_depends_only_on_mapped_fields_witness :
    dana.timestamp = danaExtra.timestamp ∧ dana.name = danaExtra.name ∧
    dana.email = danaExtra.email ∧ dana.phone = danaExtra.phone ∧
    dana.whatsapp = danaExtra.whatsapp ∧ dana.source = danaExtra.source ∧
    dana.extra ≠ danaExtra.extra ∧
    (Gmail.sheetValues dana = Gmail.sheetValues danaExtra ∧
     Rsend.sheetValues dana = Rsend.sheetValues danaExtra ∧
     ServerJs.sheetValues dana = ServerJs.sheetValues danaExtra) :=
  ⟨rfl, rfl, rfl, rfl, rfl, rfl, by decide,
   sheet_row_depends_only_on_mapped_fields dana danaExtra rfl rfl rfl rfl rfl rfl⟩

/-- C2 (amended): in the Gmail and Resend variants, for every valid
submission, a sheet-append error is caught inside the handler, recorded as
`sheetSuccess = false` in the response details, never escapes, and the
notification step still runs.  (In the `server.js` variant a sheet error
instead aborts the handler before the notification step.) -/
theorem sheet_error_isolated (tc : Bool) (env : Env)
    (fmt : Option String → String) (w : World) (d : FormData) (e : String)
    (hn : jsTruthy d.name = true) (he : jsTruthy d.email = true)
    (hp : jsTruthy d.phone = true) (hw : w.sheetAppend = ExtResult.err e) :
    ((Gmail.submitForm tc env fmt w d).response =
       { status := 500, success := false,
         message := "Failed to process form submission",
         details := some (false, emailSuccessOf tc w) } ∧
     (Gmail.submitForm tc env fmt w d).emailStepRan = true) ∧
    ((Rsend.submitForm tc env fmt w d).response =
       { status := 500, success := false,
         message := "Failed to process form submission",
         details := some (false, emailSuccessOf tc w) } ∧
     (Rsend.submitForm tc env fmt w d).emailStepRan = true) := by
  cases hwe : w.emailSend <;> cases tc <;>
    simp [Gmail.submitForm, Rsend.submitForm, Gmail.appendToSheet, Rsend.appendToSheet,
      Gmail.sendNotificationEmail, Rsend.sendNotificationEmail,
      emailSuccessOf, hn, he, hp, hw, hwe]

/-- C2 witness: the Dana submission in a world whose sheet append rejects. -/
theorem sheet_error_isolated_witness :
    jsTruthy dana.name = true ∧ jsTruthy dana.email = true ∧
    jsTruthy dana.phone = true ∧
    wSheetErr.sheetAppend = ExtResult.err "sheet down" ∧
    (((Gmail.submitForm true envA fmtA wSheetErr dana).response =
        { status := 500, success := false,
          message := "Failed to process form submission",
          details := some (false, emailSuccessOf true wSheetErr) } ∧
      (Gmail.submitForm true envA fmtA wSheetErr dana).emailStepRan = true) ∧
     ((Rsend.submitForm true envA fmtA wSheetErr dana).response =
        { status := 500, success := false,
          message := "Failed to process form submission",
          details := some (false, emailSuccessOf true wSheetErr) } ∧
      (Rsend.submitForm true envA fmtA wSheetErr dana).emailStepRan = true)) :=
  ⟨by decide, by decide, by decide, rfl,
   sheet_error_isolated true envA fmtA wSheetErr dana "sheet down"
     (by decide) (by decide) (by decide) rfl⟩

/-- C2 counterexample: in the `server.js` variant a sheet-append error is
not recorded as a flag and does prevent the notification step from
running — the handler falls to the outer catch and answers the generic
500 with no details. -/
theorem serverJs_sheet_error_not_isolated :
    ServerJs.submitForm envA fmtA wSheetErr dana =
      { response := { status := 500, success := false,
                      message := "Server error", details := none }
        sheetCalled := true, emailStepRan := false } := by
  rfl

/-- C3 (amended): in the Gmail and Resend variants, for every valid
submission, the response status and success flag are determined by the
sheet outcome alone (200/true when the append resolves, 500/false when it
rejects), whatever the transport configuration and send outcome.  (In the
`server.js` variant the notification outcome also changes the status.) -/
theorem verdict_is_sheet_success_alone (tc : Bool) (env : Env)
    (fmt : Option String → String) (w : World) (d : FormData)
    (hn : jsTruthy d.name = true) (he : jsTruthy d.email = true)
    (hp : jsTruthy d.phone = true) :
    (Gmail.submitForm tc env fmt w d).response.status =
      (if sheetOk w then 200 else 500) ∧
    (Gmail.submitForm tc env fmt w d).response.success = sheetOk w ∧
    (Rsend.submitForm tc env fmt w d).response.status =
      (if sheetOk w then 200 else 500) ∧
    (Rsend.submitForm tc env fmt w d).response.success = sheetOk w := by
  cases hws : w.sheetAppend <;> cases hwe : w.emailSend <;> cases tc <;>
    simp [Gmail.submitForm, Rsend.submitForm, Gmail.appendToSheet, Rsend.appendToSheet,
      Gmail.sendNotificationEmail, Rsend.sendNotificationEmail,
      sheetOk, hn, he, hp, hws, hwe]

/-- C3 witness: the Dana submission with the sheet succeeding and the mail
send rejecting still gets status 200. -/
theorem verdict_is_sheet_success_alone_witness :
    jsTruthy dana.name = true ∧ jsTruthy dana.email = true ∧
    jsTruthy dana.phone = true ∧
    ((Gmail.submitForm true envA fmtA wEmailErr dana).response.status =
       (if sheetOk wEmailErr then 200 else 500) ∧
     (Gmail.submitForm true envA fmtA wEmailErr dana).response.success = sheetOk wEmailErr ∧
     (Rsend.submitForm true envA fmtA wEmailErr dana).response.status =
       (if sheetOk wEmailErr then 200 else 500) ∧
     (Rsend.submitForm true envA fmtA wEmailErr dana).response.success = sheetOk wEmailErr) :=
  ⟨by decide, by decide, by decide,
   verdict_is_sheet_success_alone true envA fmtA wEmailErr dana
     (by decide) (by decide) (by decide)⟩

/-- C3 counterexample: in the `server.js` variant, with the sheet append
succeeding and the mail send rejecting, the status is 500, not 200 — the
notification outcome does change the status code there. -/
theorem serverJs_email_error_changes_verdict :
    sheetOk wEmailErr = true ∧
    (ServerJs.submitForm envA fmtA wEmailErr dana).response.status = 500 := by
  refine ⟨rfl, rfl⟩

/-- C4 (amended): in the Gmail and Resend variants, for every valid
submission, the response body reports both outcome flags regardless of
verdict: 200 with `success:true` and `details:{sheetSuccess:=true,
emailSuccess}` when the append resolved, 500 with `success:false` and
`details:{sheetSuccess:=false, emailSuccess}` when it rejected.  (The
`server.js` variant reports no `details` object at all.) -/
theorem response_reports_both_flags (tc : Bool) (env : Env)
    (fmt : Option String → String) (w : World) (d : FormData)
    (hn : jsTruthy d.name = true) (he : jsTruthy d.email = true)
    (hp : jsTruthy d.phone = true) :
    (Gmail.submitForm tc env fmt w d).response =
      (if sheetOk w then
        { status := 200, success := true, message := "Form submitted successfully",
          details := some (true, emailSuccessOf tc w) }
       else
        { status := 500, success := false, message := "Failed to process form submission",
          details := some (false, emailSuccessOf tc w) }) ∧
    (Rsend.submitForm tc env fmt w d).response =
      (if sheetOk w then
        { status := 200, success := true, message := "Form submitted successfully",
          details := some (true, emailSuccessOf tc w) }
       else
        { status := 500, success := false, message := "Failed to process form submission",
          details := some (false, emailSuccessOf tc w) }) := by
  cases hws : w.sheetAppend <;> cases hwe : w.emailSend <;> cases tc <;>
    simp [Gmail.submitForm, Rsend.submitForm, Gmail.appendToSheet, Rsend.appendToSheet,
      Gmail.sendNotificationEmail, Rsend.sendNotificationEmail,
      sheetOk, emailSuccessOf, hn, he, hp, hws, hwe]

/-- C4 witness: the Dana submission with both external calls succeeding,
and with the sheet append rejecting. -/
theorem response_reports_both_flags_witness :
    jsTruthy dana.name = true ∧ jsTruthy dana.email = true ∧
    jsTruthy dana.phone = true ∧
    ((Gmail.submitForm true envA fmtA wOk dana).response =
      (if sheetOk wOk then
        { status := 200, success := true, message := "Form submitted successfully",
          details := some (true, emailSuccessOf true wOk) }
       else
        { status := 500, success := false, message := "Failed to process form submission",
          details := some (false, emailSuccessOf true wOk) }) ∧
     (Rsend.submitForm true envA fmtA wOk dana).response =
      (if sheetOk wOk then
        { status := 200, success := true, message := "Form submitted successfully",
          details := some (true, emailSuccessOf true wOk) }
       else
        { status := 500, success := false, message := "Failed to process form submission",
          details := some (false, emailSuccessOf true wOk) })) :=
  ⟨by decide, by decide, by decide,
   response_reports_both_flags true envA fmtA wOk dana
     (by decide) (by decide) (by decide)⟩

/-- C4 counterexample: the `server.js` variant's success response carries
no `details` object with the two outcome flags. -/
theorem serverJs_success_response_lacks_details :
    (ServerJs.submitForm envA fmtA wOk dana).response =
      { status := 200, success := true, message := "Form submitted successfully",
        details := none } := by
  rfl

/-- C6 (amended): in the Gmail and Resend variants, when no transport is
configured, `sendNotificationEmail` returns the skipped outcome (null,
with nothing dispatched and no error), and for every valid submission the
handler reports `emailSuccess:false` while the verdict still tracks the
sheet outcome alone.  (The `server.js` variant has no skip path: its
`sendNotificationEmail` always dispatches and lets transport errors
propagate.) -/
theorem unconfigured_transport_skips (env : Env)
    (fmt : Option String → String) (w : World) (d : FormData)
    (hn : jsTruthy d.name = true) (he : jsTruthy d.email = true)
    (hp : jsTruthy d.phone = true) :
    Gmail.sendNotificationEmail false env fmt w d =
      { dispatched := none, result := none } ∧
    Rsend.sendNotificationEmail false env fmt w d =
      { dispatched := none, result := none } ∧
    (Gmail.submitForm false env fmt w d).response.details = some (sheetOk w, false) ∧
    (Gmail.submitForm false env fmt w d).response.status =
      (if sheetOk w then 200 else 500) ∧
    (Rsend.submitForm false env fmt w d).response.details = some (sheetOk w, false) ∧
    (Rsend.submitForm false env fmt w d).response.status =
      (if sheetOk w then 200 else 500) := by
  cases hws : w.sheetAppend <;> cases hwe : w.emailSend <;>
    simp [Gmail.sendNotificationEmail, Rsend.sendNotificationEmail,
      Gmail.submitForm, Rsend.submitForm, Gmail.appendToSheet, Rsend.appendToSheet,
      sheetOk, hn, he, hp, hws, hwe]

/-- C6 witness: the Dana submission with no transport configured and both
external calls otherwise healthy. -/
theorem unconfigured_transport_skips_witness :
    jsTruthy dana.name = true ∧ jsTruthy dana.email = true ∧
    jsTruthy dana.phone = true ∧
    (Gmail.sendNotificationEmail false envA fmtA wOk dana =
       { dispatched := none, result := none } ∧
     Rsend.sendNotificationEmail false envA fmtA wOk dana =
       { dispatched := none, result := none } ∧
     (Gmail.submitForm false envA fmtA wOk dana).response.details =
       some (sheetOk wOk, false) ∧
     (Gmail.submitForm false envA fmtA wOk dana).response.status =
       (if sheetOk wOk then 200 else 500) ∧
     (Rsend.submitForm false envA fmtA wOk dana).response.details =
       some (sheetOk wOk, false) ∧
     (Rsend.submitForm false envA fmtA wOk dana).response.status =
       (if sheetOk wOk then 200 else 500)) :=
  ⟨by decide, by decide, by decide,
   unconfigured_transport_skips envA fmtA wOk dana
     (by decide) (by decide) (by decide)⟩

/-- C6 counterexample: the `server.js` variant has no skipped outcome —
its `sendNotificationEmail` always hands a message to the transport and
returns the raw transport result, so a rejecting (e.g. unconfigured)
transport surfaces as an error and flips the handler's verdict to the
generic 500. -/
theorem serverJs_send_has_no_skip :
    (ServerJs.sendNotificationEmail envA fmtA wEmailErr dana).1 =
      ServerJs.mailOptions envA dana fmtA ∧
    (ServerJs.sendNotificationEmail envA fmtA wEmailErr dana).2 =
      ExtResult.err "smtp down" ∧
    (ServerJs.submitForm envA fmtA wEmailErr dana).response =
      { status := 500, success := false, message := "Server error",
        details := none } := by
  refine ⟨rfl, rfl, rfl⟩

/-- C7 (amended): in the Gmail and Resend variants, for every valid
submission with the transport configured, the dispatched message goes to
the single configured notification recipient and its HTML body contains
every submission field plus the locale-formatted timestamp; the lead's
email is set as the reply-to address in the Gmail variant only — the
Resend variant sets no reply-to. -/
theorem notification_message_contents (env : Env)
    (fmt : Option String → String) (w : World) (d : FormData)
    (hn : jsTruthy d.name = true) (he : jsTruthy d.email = true)
    (hp : jsTruthy d.phone = true) :
    ((Gmail.sendNotificationEmail true env fmt w d).dispatched =
       some (Gmail.mailOptions env d (fmt d.timestamp)) ∧
     (Gmail.mailOptions env d (fmt d.timestamp)).toAddr = env.notificationEmail ∧
     (Gmail.mailOptions env d (fmt d.timestamp)).replyTo = some d.email ∧
     containsStr (Gmail.mailOptions env d (fmt d.timestamp)).html d.name ∧
     containsStr (Gmail.mailOptions env d (fmt d.timestamp)).html d.email ∧
     containsStr (Gmail.mailOptions env d (fmt d.timestamp)).html d.phone ∧
     containsStr (Gmail.mailOptions env d (fmt d.timestamp)).html
       (if d.whatsapp then "✅ כן" else "❌ לא") ∧
     containsStr (Gmail.mailOptions env d (fmt d.timestamp)).html
       (jsOr d.source "דף נחיתה") ∧
     containsStr (Gmail.mailOptions env d (fmt d.timestamp)).html (fmt d.timestamp)) ∧
    ((Rsend.sendNotificationEmail true env fmt w d).dispatched =
       some (Rsend.mailOptions env d (fmt d.timestamp)) ∧
     (Rsend.mailOptions env d (fmt d.timestamp)).toAddr = env.notificationEmail ∧
     (Rsend.mailOptions env d (fmt d.timestamp)).replyTo = none ∧
     containsStr (Rsend.mailOptions env d (fmt d.timestamp)).html d.name ∧
     containsStr (Rsend.mailOptions env d (fmt d.timestamp)).html d.email ∧
     containsStr (Rsend.mailOptions env d (fmt d.timestamp)).html d.phone ∧
     containsStr (Rsend.mailOptions env d (fmt d.timestamp)).html
       (if d.whatsapp then "כן" else "לא") ∧
     containsStr (Rsend.mailOptions env d (fmt d.timestamp)).html
       (jsOr d.source "דף נחיתה") ∧
     containsStr (Rsend.mailOptions env d (fmt d.timestamp)).html (fmt d.timestamp)) := by
  obtain ⟨g₁, g₂, g₃, g₄, g₅, g₆⟩ := gmailHtml_contains d (fmt d.timestamp)
  obtain ⟨r₁, r₂, r₃, r₄, r₅, r₆⟩ := rsendHtml_contains d (fmt d.timestamp)
  cases hwe : w.emailSend <;>
    exact ⟨⟨by simp [Gmail.sendNotificationEmail, hwe], rfl, rfl,
            g₁, g₂, g₃, g₄, g₅, g₆⟩,
           ⟨by simp [Rsend.sendNotificationEmail, hwe], rfl, rfl,
            r₁, r₂, r₃, r₄, r₅, r₆⟩⟩

/-- C7 witness: the Dana submission, a configured transport and a healthy
world. -/
theorem notification_message_contents_witness :
    jsTruthy dana.name = true ∧ jsTruthy dana.email = true ∧
    jsTruthy dana.phone = true ∧
    (((Gmail.sendNotificationEmail true envA fmtA wOk dana).dispatched =
       some (Gmail.mailOptions envA dana (fmtA dana.timestamp)) ∧
     (Gmail.mailOptions envA dana (fmtA dana.timestamp)).toAddr = envA.notificationEmail ∧
     (Gmail.mailOptions envA dana (fmtA dana.timestamp)).replyTo = some dana.email ∧
     containsStr (Gmail.mailOptions envA dana (fmtA dana.timestamp)).html dana.name ∧
     containsStr (Gmail.mailOptions envA dana (fmtA dana.timestamp)).html dana.email ∧
     containsStr (Gmail.mailOptions envA dana (fmtA dana.timestamp)).html dana.phone ∧
     containsStr (Gmail.mailOptions envA dana (fmtA dana.timestamp)).html
       (if dana.whatsapp then "✅ כן" else "❌ לא") ∧
     containsStr (Gmail.mailOptions envA dana (fmtA dana.timestamp)).html
       (jsOr dana.source "דף נחיתה") ∧
     containsStr (Gmail.mailOptions envA dana (fmtA dana.timestamp)).html
       (fmtA dana.timestamp)) ∧
    ((Rsend.sendNotificationEmail true envA fmtA wOk dana).dispatched =
       some (Rsend.mailOptions envA dana (fmtA dana.timestamp)) ∧
     (Rsend.mailOptions envA dana (fmtA dana.timestamp)).toAddr = envA.notificationEmail ∧
     (Rsend.mailOptions envA dana (fmtA dana.timestamp)).replyTo = none ∧
     containsStr (Rsend.mailOptions envA dana (fmtA dana.timestamp)).html dana.name ∧
     containsStr (Rsend.mailOptions envA dana (fmtA dana.timestamp)).html dana.email ∧
     containsStr (Rsend.mailOptions envA dana (fmtA dana.timestamp)).html dana.phone ∧
     containsStr (Rsend.mailOptions envA dana (fmtA dana.timestamp)).html
       (if dana.whatsapp then "כן" else "לא") ∧
     containsStr (Rsend.mailOptions envA dana (fmtA dana.timestamp)).html
       (jsOr dana.source "דף נחיתה") ∧
     containsStr (Rsend.mailOptions envA dana (fmtA dana.timestamp)).html
       (fmtA dana.timestamp))) :=
  ⟨by decide, by decide, by decide,
   notification_message_contents envA fmtA wOk dana
     (by decide) (by decide) (by decide)⟩

/-- C7 counterexample: the Resend variant dispatches the Dana notification
with no reply-to address, so the lead's email is not set as reply-to in
that variant. -/
theorem rsend_message_lacks_replyTo :
    (Rsend.sendNotificationEmail true envA fmtA wOk dana).dispatched =
      some (Rsend.mailOptions envA dana (fmtA dana.timestamp)) ∧
    (Rsend.mailOptions envA dana (fmtA dana.timestamp)).replyTo = none ∧
    dana.email = "dana@x.com" := by
  refine ⟨rfl, rfl, rfl⟩

/-- C8 (amended): the two notification transports agree on the skip
condition, the outcome signal handed to the orchestrator, and the
recipient: under equal configuration flag and send outcome they return a
non-null result exactly together, dispatch exactly together and to the
same recipient address, and when unconfigured both skip identically;
when configured both dispatch bodies containing the same lead fields —
the name, email and phone, the consent token (`כן`/`לא` by the whatsapp
flag), the default-resolved source and the formatted timestamp; but
their messages are not equivalent in all externally visible attributes —
only the Gmail transport sets the lead's email as the reply-to address. -/
theorem transports_equivalent_up_to_message (cfg : Bool) (env : Env)
    (fmt : Option String → String) (w : World) (d : FormData) :
    (Gmail.sendNotificationEmail cfg env fmt w d).result.isSome =
      (Rsend.sendNotificationEmail cfg env fmt w d).result.isSome ∧
    (Gmail.sendNotificationEmail cfg env fmt w d).dispatched.isSome =
      (Rsend.sendNotificationEmail cfg env fmt w d).dispatched.isSome ∧
    Option.map MailMessage.toAddr (Gmail.sendNotificationEmail cfg env fmt w d).dispatched =
      Option.map MailMessage.toAddr (Rsend.sendNotificationEmail cfg env fmt w d).dispatched ∧
    Gmail.sendNotificationEmail false env fmt w d =
      Rsend.sendNotificationEmail false env fmt w d ∧
    (Gmail.sendNotificationEmail true env fmt w d).dispatched =
      some (Gmail.mailOptions env d (fmt d.timestamp)) ∧
    (Rsend.sendNotificationEmail true env fmt w d).dispatched =
      some (Rsend.mailOptions env d (fmt d.timestamp)) ∧
    containsStr (Gmail.mailOptions env d (fmt d.timestamp)).html d.name ∧
    containsStr (Rsend.mailOptions env d (fmt d.timestamp)).html d.name ∧
    containsStr (Gmail.mailOptions env d (fmt d.timestamp)).html d.email ∧
    containsStr (Rsend.mailOptions env d (fmt d.timestamp)).html d.email ∧
    containsStr (Gmail.mailOptions env d (fmt d.timestamp)).html d.phone ∧
    containsStr (Rsend.mailOptions env d (fmt d.timestamp)).html d.phone ∧
    containsStr (Gmail.mailOptions env d (fmt d.timestamp)).html
      (if d.whatsapp then "כן" else "לא") ∧
    containsStr (Rsend.mailOptions env d (fmt d.timestamp)).html
      (if d.whatsapp then "כן" else "לא") ∧
    containsStr (Gmail.mailOptions env d (fmt d.timestamp)).html
      (jsOr d.source "דף נחיתה") ∧
    containsStr (Rsend.mailOptions env d (fmt d.timestamp)).html
      (jsOr d.source "דף נחיתה") ∧
    containsStr (Gmail.mailOptions env d (fmt d.timestamp)).html (fmt d.timestamp) ∧
    containsStr (Rsend.mailOptions env d (fmt d.timestamp)).html (fmt d.timestamp) := by
  obtain ⟨g₁, g₂, g₃, g₄, g₅, g₆⟩ := gmailHtml_contains d (fmt d.timestamp)
  obtain ⟨r₁, r₂, r₃, r₄, r₅, r₆⟩ := rsendHtml_contains d (fmt d.timestamp)
  have htok : ∀ b : Bool,
      containsStr (if b then "✅ כן" else "❌ לא") (if b then "כן" else "לא") := by
    intro b
    cases b
    · exact ⟨"❌ ".data, [], by decide⟩
    · exact ⟨"✅ ".data, [], by decide⟩
  refine ⟨?_, ?_, ?_, ?_, ?_, ?_,
    g₁, r₁, g₂, r₂, g₃, r₃, containsStr_trans g₄ (htok d.whatsapp), r₄, g₅, r₅, g₆, r₆⟩
  · cases cfg <;> cases hwe : w.emailSend <;>
      simp [Gmail.sendNotificationEmail, Rsend.sendNotificationEmail, hwe]
  · cases cfg <;> cases hwe : w.emailSend <;>
      simp [Gmail.sendNotificationEmail, Rsend.sendNotificationEmail, hwe]
  · cases cfg <;> cases hwe : w.emailSend <;>
      simp [Gmail.sendNotificationEmail, Rsend.sendNotificationEmail,
        Gmail.mailOptions, Rsend.mailOptions, hwe]
  · simp [Gmail.sendNotificationEmail, Rsend.sendNotificationEmail]
  · cases hwe : w.emailSend <;> simp [Gmail.sendNotificationEmail, hwe]
  · cases hwe : w.emailSend <;> simp [Rsend.sendNotificationEmail, hwe]

/-- C8 counterexample: on the Dana submission the dispatched messages of
the two transports differ in an externally visible attribute — the Gmail
message carries the lead's email as reply-to, the Resend message carries
none. -/
theorem transports_differ_on_replyTo :
    Option.map MailMessage.replyTo
        (Gmail.sendNotificationEmail true envA fmtA wOk dana).dispatched =
      some (some "dana@x.com") ∧
    Option.map MailMessage.replyTo
        (Rsend.sendNotificationEmail true envA fmtA wOk dana).dispatched =
      some none := by
  refine ⟨rfl, rfl⟩
